import Mathlib

/-!
# Verification of the fastapi-sqlalchemy glue layer

A shallow embedding of `src/fastapi_sqlalchemy/__init__.py`: the engine
connector cache, configuration handling at `init_app`, the per-request
session middleware, the SQLite/MySQL driver hacks, engine-option
precedence, session bind routing and application lookup.

Python dictionaries are embedded as association lists over a value type
`OptVal`; `none : Option OptVal` on lookup plays the role of an absent
key, while `OptVal.pynone` is an explicitly stored Python `None`.
Engines are identified by natural-number ids allocated from a counter, so
reference equality of engine objects becomes equality of ids.
-/

namespace FastapiSQLAlchemy

/-- A Python value that can appear in an engine-options dictionary:
ints, strings, booleans, the two pool classes the code injects, nested
dictionaries (for `connect_args`) and an explicit `None`. -/
inductive OptVal where
  | int : Int → OptVal
  | str : String → OptVal
  | boolV : Bool → OptVal
  | poolStatic : OptVal
  | poolNull : OptVal
  | dict : List (String × OptVal) → OptVal
  | pynone : OptVal

/-- A Python `dict` with string keys, as an association list. -/
abbrev Dict := List (String × OptVal)

/-- `d[k]` / `d.get(k)`: first entry with key `k`. -/
def dget (d : Dict) (k : String) : Option OptVal :=
  (d.find? (fun p => p.1 = k)).map (·.2)

/-- `d[k] = v`: replace the value at `k` in place, or append the entry
when the key is absent (Python dicts preserve insertion order). -/
def dset (d : Dict) (k : String) (v : OptVal) : Dict :=
  match d with
  | [] => [(k, v)]
  | p :: t => if p.1 = k then (k, v) :: t else p :: dset t k v

/-- `d.setdefault(k, v)`: insert only when the key is absent. -/
def dsetdefault (d : Dict) (k : String) (v : OptVal) : Dict :=
  if (dget d k).isSome then d else d ++ [(k, v)]

/-- `a.update(b)`: write every entry of `b` into `a`. -/
def dupdate (a b : Dict) : Dict :=
  b.foldl (fun acc p => dset acc p.1 p.2) a

/-- A dictionary coming from a Python `dict` has no duplicate keys. -/
def NodupKeys (d : Dict) : Prop := (d.map Prod.fst).Nodup

/-- Python truthiness of a value stored in an options dictionary. -/
def OptVal.truthy : OptVal → Bool
  | .int n => n ≠ 0
  | .str s => s ≠ ""
  | .boolV b => b
  | .poolStatic => true
  | .poolNull => true
  | .dict d => !d.isEmpty
  | .pynone => false

/-- Python truthiness of a `d.get(k)` result (`None` when absent). -/
def truthyGet : Option OptVal → Bool
  | none => false
  | some v => v.truthy

/-! ## The request middleware (`db_session_middleware`)

The middleware body is a straight-line `try`/`finally` over session
calls; we embed it as the trace of session operations it performs,
parameterised by whether the wrapped handler raises and by the
`SQLALCHEMY_COMMIT_ON_TEARDOWN` flag. The returned boolean records
whether the handler exception propagates to the caller. -/

/-- One observable step of `db_session_middleware`. -/
inductive MWOp where
  | rollback
  | flush
  | expireAll
  | callNext
  | warnDeprecation
  | commit
  | remove
deriving DecidableEq, Repr

/-- Trace of `db_session_middleware`: `rollback`, `flush`, `expire_all`,
then the handler; on normal return, optionally the deprecated
commit-on-teardown (with its warning); the `finally` block always runs
`session.remove()` last. -/
def db_session_middleware (commitOnTeardown handlerRaises : Bool) :
    List MWOp × Bool :=
  let pre : List MWOp := [.rollback, .flush, .expireAll, .callNext]
  if handlerRaises then
    (pre ++ [.remove], true)
  else if commitOnTeardown then
    (pre ++ [.warnDeprecation, .commit, .remove], false)
  else
    (pre ++ [.remove], false)

/-! ## Application lookup (`SQLAlchemy.get_app`) -/

/-- Applications are identified by ids. -/
abbrev App := Nat

/-- The `RuntimeError` message raised by `get_app`. -/
def noAppMsg : String :=
  "No application found. Either work inside a view function or push" ++
  " an application context. See" ++
  " https://flask-sqlalchemy.palletsprojects.com/contexts/."

/-- `SQLAlchemy.get_app`: an explicit `reference_app` wins, else the
application bound on the instance (`self.app`), else `RuntimeError`. -/
def get_app (selfApp referenceApp : Option App) : Except String App :=
  match referenceApp with
  | some a => .ok a
  | none =>
    match selfApp with
    | some a => .ok a
    | none => .error noAppMsg

/-! ## Configuration and `init_app` -/

/-- The configuration mapping a user passes to `init_app`, restricted to
the keys the library reads. `none` stands for an absent key or an
explicit Python `None` (the two are indistinguishable through
`config.get(key, None)`, which is how `init_app` tests them). -/
structure UserConfig where
  databaseURI : Option String := none
  binds : Option (List (String × String)) := none
  echo : Option Bool := none
  recordQueries : Option Bool := none
  commitOnTeardown : Option Bool := none
  trackModifications : Option Bool := none
  engineOptions : Option Dict := none

/-- The configuration after `init_app` has filled in defaults
(`SQLALCHEMY_ECHO = False`, `SQLALCHEMY_BINDS = None`, …). -/
structure Config where
  databaseURI : Option String
  binds : Option (List (String × String))
  echo : Bool
  recordQueries : Option Bool
  commitOnTeardown : Bool
  trackModifications : Bool
  engineOptions : Dict

/-- Python truthiness of an optional string (`None`/`""` are falsy). -/
def truthyStr : Option String → Bool
  | none => false
  | some s => s ≠ ""

/-- Python truthiness of an optional bind map (`None`/`{}` falsy). -/
def truthyBinds : Option (List (String × String)) → Bool
  | none => false
  | some l => !l.isEmpty

/-- The `RuntimeError` message raised by `init_app` when neither URI nor
binds are configured. -/
def needUriMsg : String :=
  "Either SQLALCHEMY_DATABASE_URI or SQLALCHEMY_BINDS needs to be set."

/-- `SQLAlchemy.init_app`'s configuration handling: raise unless a
truthy `SQLALCHEMY_DATABASE_URI` or `SQLALCHEMY_BINDS` is present, then
fill in the documented defaults via `setdefault`. -/
def init_app (c : UserConfig) : Except String Config :=
  if !(truthyStr c.databaseURI || truthyBinds c.binds) then
    .error needUriMsg
  else
    .ok
      { databaseURI := c.databaseURI
        binds := c.binds
        echo := c.echo.getD false
        recordQueries := c.recordQueries
        commitOnTeardown := c.commitOnTeardown.getD false
        trackModifications := c.trackModifications.getD false
        engineOptions := c.engineOptions.getD [] }

/-! ## Database URLs

`make_url` models the external SQLAlchemy library's RFC-1738 URL parse,
restricted to the two fields this glue layer inspects: the driver name
and the database target (plus the query string, which the MySQL hack
touches). -/

/-- The parts of a parsed database URL that the code reads or writes. -/
structure SAUrl where
  drivername : String
  database : Option String
  query : List (String × String)
deriving DecidableEq, Repr

/-- `p` is a leading piece of `s` (the model's `str.startswith`). -/
def strStartsWith (s p : String) : Bool := p.data.isPrefixOf s.data

/-- `p` is a trailing piece of `s` (the model's `str.endswith`). -/
def strEndsWith (s p : String) : Bool := p.data.reverse.isPrefixOf s.data.reverse

/-- Split a character list at the first occurrence of `sep`, returning
the pieces before and after it, or `none` when `sep` does not occur. -/
def splitFirst (sep : List Char) : List Char → Option (List Char × List Char)
  | [] => none
  | c :: t =>
    if sep.isPrefixOf (c :: t) then some ([], (c :: t).drop sep.length)
    else
      match splitFirst sep t with
      | some (a, b) => some (c :: a, b)
      | none => none

/-- Model of the external library's `make_url` on a string: the scheme
before `://` is the driver name; for `scheme://` the database is `None`;
a path after `scheme:///` is the database; with an authority part
(`scheme://host/db`) the database is what follows the host. Query
parsing is not modeled (no claim supplies one in the URL). -/
def make_url (s : String) : SAUrl :=
  match splitFirst ("://".data) s.data with
  | none => { drivername := s, database := none, query := [] }
  | some (d, r) =>
    let dn := String.mk d
    match r with
    | [] => { drivername := dn, database := none, query := [] }
    | '/' :: db =>
      { drivername := dn
        database := if db.isEmpty then none else some (String.mk db)
        query := [] }
    | _ =>
      match splitFirst ['/'] r with
      | none => { drivername := dn, database := none, query := [] }
      | some (_, db) => { drivername := dn, database := some (String.mk db), query := [] }

/-- `_sa_url_query_setdefault(url, key=value)` for one key: add the
query parameter only when it is absent. -/
def sa_url_query_setdefault (u : SAUrl) (k v : String) : SAUrl :=
  if ((u.query.find? (fun p => p.1 = k)).isSome) then u
  else { u with query := u.query ++ [(k, v)] }

/-- `os.path.isabs` on POSIX. -/
def isAbs (p : String) : Bool := strStartsWith p "/"

/-- `os.path.join` for two components on POSIX. -/
def path_join (a b : String) : String :=
  if isAbs b then b
  else if strEndsWith a "/" then a ++ b
  else a ++ "/" ++ b

/-! ## Driver hacks (`SQLAlchemy.apply_driver_hacks`) -/

/-- `True` exactly when the SQLite database target is in-memory:
`sa_url.database in (None, "", ":memory:")`. -/
def inMemoryTarget : Option String → Bool
  | none => true
  | some s => s = "" || s = ":memory:"

/-- Python `pool_size == 0` on a `d.get("pool_size")` result (`False`
also compares equal to `0` in Python). -/
def isExplicitZero : Option OptVal → Bool
  | some (.int 0) => true
  | some (.boolV false) => true
  | _ => false

/-- The `RuntimeError` message for an in-memory SQLite target whose pool
size was explicitly set to zero. -/
def memZeroPoolMsg : String :=
  "SQLite in memory database with an " ++
  "empty queue not possible due to data " ++
  "loss."

/-- `SQLAlchemy.apply_driver_hacks`: dialect-specific option defaults.
MySQL gets a `utf8mb4` charset and (outside the `gaerdbms` variant)
default pool size/recycle; an in-memory SQLite target gets a
`StaticPool` with `check_same_thread=False`, raising when the pool size
was explicitly zero; a file SQLite target with a falsy pool size gets a
`NullPool`, and a relative database path is joined to the application
root path (`app.root_path or '.'`). -/
def apply_driver_hacks (rootPath : String) (sa_url : SAUrl) (options : Dict) :
    Except String (SAUrl × Dict) :=
  if strStartsWith sa_url.drivername "mysql" then
    let sa_url := sa_url_query_setdefault sa_url "charset" "utf8mb4"
    let options :=
      if sa_url.drivername ≠ "mysql+gaerdbms" then
        dsetdefault (dsetdefault options "pool_size" (.int 10)) "pool_recycle" (.int 7200)
      else options
    .ok (sa_url, options)
  else if sa_url.drivername = "sqlite" then
    let pool_size := dget options "pool_size"
    if inMemoryTarget sa_url.database then
      let options := dset options "poolclass" .poolStatic
      let options :=
        if (dget options "connect_args").isNone then
          dset options "connect_args" (.dict [])
        else options
      let options :=
        match dget options "connect_args" with
        | some (.dict d) =>
          dset options "connect_args" (.dict (dset d "check_same_thread" (.boolV false)))
        | _ => options
      if isExplicitZero pool_size then
        .error memZeroPoolMsg
      else
        .ok (sa_url, options)
    else
      let options :=
        if truthyGet pool_size then options
        else dset options "poolclass" .poolNull
      let db := sa_url.database.getD ""
      if isAbs db then
        .ok (sa_url, options)
      else
        let root := if rootPath = "" then "." else rootPath
        .ok ({ sa_url with database := some (path_join root db) }, options)
  else
    .ok (sa_url, options)

/-! ## Engine options (`_EngineConnector.get_options`) -/

/-- `_EngineConnector.get_options`: start from `{}`, let
`apply_driver_hacks` inject dialect defaults, add `echo` when truthy,
then overwrite with the user's `SQLALCHEMY_ENGINE_OPTIONS` and finally
with the `engine_options` given to the `SQLAlchemy` constructor
(`self._sa._engine_options`). -/
def get_options (cfg : Config) (rootPath : String) (ctorOpts : Dict)
    (sa_url : SAUrl) (echo : Bool) : Except String (SAUrl × Dict) :=
  match apply_driver_hacks rootPath sa_url [] with
  | .error e => .error e
  | .ok (url2, options) =>
    let options := if echo then dset options "echo" (.boolV echo) else options
    let options := dupdate options cfg.engineOptions
    let options := dupdate options ctorOpts
    .ok (url2, options)

/-! ## The engine connector (`_EngineConnector`) -/

/-- The mutable fields of an `_EngineConnector`: its bind name, the
`(uri, echo)` pair it last connected for, and the engine it built
(an id; `None` before the first build). -/
structure Connector where
  bind : Option String
  connectedFor : Option (Option String × Bool)
  engine : Option Nat
deriving DecidableEq, Repr

/-- A fresh connector, as built by `SQLAlchemy.make_connector`. -/
def make_connector (bind : Option String) : Connector :=
  { bind := bind, connectedFor := none, engine := none }

/-- The `AssertionError` message of `_EngineConnector.get_uri` for a
bind name missing from `SQLALCHEMY_BINDS` (`repr` quotes the name). -/
def bindNotConfiguredMsg (b : String) : String :=
  "Bind '" ++ b ++ "' is not configured in 'SQLALCHEMY_BINDS'."

/-- Error for the external library's `make_url` receiving Python `None`
instead of a URL string (only reachable when `SQLALCHEMY_DATABASE_URI`
is `None` and the default bind's engine is requested). -/
def makeUrlNoneMsg : String := "make_url: URL must be a string."

namespace EngineConnector

/-- `_EngineConnector.get_uri`: the primary URI for the default bind;
otherwise look the bind name up in `SQLALCHEMY_BINDS` (treating `None`
as an empty map) and fail with an assertion if it is absent. The value
is `Option String` because the config slot may hold Python `None`. -/
def get_uri (cfg : Config) : Option String → Except String (Option String)
  | none => .ok cfg.databaseURI
  | some b =>
    match (cfg.binds.getD []).find? (fun p => p.1 = b) with
    | some p => .ok (some p.2)
    | none => .error (bindNotConfiguredMsg b)

/-- `_EngineConnector.get_engine` (the body under `self._lock`):
resolve the URI and echo flag; if `(uri, echo)` equals
`self._connected_for`, return the cached engine; otherwise parse the
URL, compute the options and build a new engine, remembering the new
`(uri, echo)` pair. Engine construction is modeled by drawing the next
id from the counter `fresh`; the result is
`(engine id, updated connector, updated counter)`. -/
def get_engine (cfg : Config) (rootPath : String) (ctorOpts : Dict)
    (c : Connector) (fresh : Nat) : Except String (Nat × Connector × Nat) :=
  match get_uri cfg c.bind with
  | .error e => .error e
  | .ok uri =>
    let echo := cfg.echo
    if c.connectedFor = some (uri, echo) then
      .ok (c.engine.getD 0, c, fresh)
    else
      match uri with
      | none => .error makeUrlNoneMsg
      | some u =>
        match get_options cfg rootPath ctorOpts (make_url u) echo with
        | .error e => .error e
        | .ok _ =>
          .ok (fresh,
               { c with connectedFor := some (uri, echo), engine := some fresh },
               fresh + 1)

end EngineConnector

/-! ## `SQLAlchemy.get_engine` over the application state -/

/-- The per-application state this layer keeps: the (post-`init_app`)
configuration, the application root path, the constructor-level engine
options, the connector cache of `_SQLAlchemyState`, and the fresh-id
counter standing in for object allocation. -/
structure DBState where
  config : Config
  rootPath : String
  ctorOpts : Dict
  connectors : List (Option String × Connector)
  fresh : Nat

/-- Look a connector up in `state.connectors`. -/
def getConnector (l : List (Option String × Connector)) (bind : Option String) :
    Option Connector :=
  (l.find? (fun p => p.1 = bind)).map (·.2)

/-- `state.connectors[bind] = connector`. -/
def setConnector (l : List (Option String × Connector)) (bind : Option String)
    (c : Connector) : List (Option String × Connector) :=
  if (getConnector l bind).isSome then
    l.map (fun p => if p.1 = bind then (bind, c) else p)
  else
    l ++ [(bind, c)]

namespace SQLAlchemy

/-- `SQLAlchemy.get_engine` (the body under `self._engine_lock`): fetch
the connector for `bind` from the state, creating and caching one on
first use, and delegate to `_EngineConnector.get_engine`. -/
def get_engine (st : DBState) (bind : Option String) : Except String (Nat × DBState) :=
  let c := (getConnector st.connectors bind).getD (make_connector bind)
  match EngineConnector.get_engine st.config st.rootPath st.ctorOpts c st.fresh with
  | .error e => .error e
  | .ok (eng, c2, fresh2) =>
    .ok (eng, { st with connectors := setConnector st.connectors bind c2, fresh := fresh2 })

/-- The app-lookup step at the head of `SQLAlchemy.get_engine`:
`app = self.get_app(app)` runs before the state is consulted, so with no
bound and no explicit application every engine access raises the
`get_app` `RuntimeError`. -/
def get_engine_entry (selfApp refApp : Option App) (st : DBState)
    (bind : Option String) : Except String (Nat × DBState) :=
  match get_app selfApp refApp with
  | .error e => .error e
  | .ok _ => get_engine st bind

end SQLAlchemy

/-! ## Session bind routing (`SignallingSession.get_bind`) -/

/-- The part of an ORM mapper that `get_bind` reads: the
`bind_key` entry of the mapped table's `info` dictionary (`none` for a
missing `info`, a missing key, or an explicit `None`). -/
structure Mapper where
  bindKey : Option String
deriving DecidableEq, Repr

/-- A session at the moment `get_bind` is called: the application state
as it is now, and the engine that the base class `Session.get_bind`
resolution (over the `bind`/`binds` captured at session construction)
would return. -/
structure SessCtx where
  db : DBState
  superBind : Nat

namespace SignallingSession

/-- `SignallingSession.get_bind`: when a mapper is given and its table's
`info` carries a non-`None` `bind_key`, call `state.db.get_engine(app,
bind=bind_key)` on the current state; otherwise fall back to the base
class resolution. -/
def get_bind (ctx : SessCtx) (mapper : Option Mapper) : Except String Nat :=
  match mapper with
  | some m =>
    match m.bindKey with
    | some k => (SQLAlchemy.get_engine ctx.db (some k)).map (fun r => r.1)
    | none => .ok ctx.superBind
  | none => .ok ctx.superBind

end SignallingSession

/-- A concrete post-`init_app` configuration used to evaluate the model:
an in-memory primary database and one extra bind. -/
def sampleConfig : Config :=
  { databaseURI := some "sqlite://"
    binds := some [("analytics", "sqlite://")]
    echo := false
    recordQueries := none
    commitOnTeardown := false
    trackModifications := false
    engineOptions := [] }

/-- A concrete application state over `sampleConfig` with an empty
connector cache. -/
def sampleState : DBState :=
  { config := sampleConfig
    rootPath := "/srv/app"
    ctorOpts := []
    connectors := []
    fresh := 0 }

/-- Well-formedness of a connector relative to the fresh-id counter:
whenever it remembers a `(uri, echo)` pair it also holds an engine, and
that engine's id was allocated before the counter's current value. -/
def ConnWF (c : Connector) (f : Nat) : Prop :=
  ∀ p, c.connectedFor = some p → ∃ x, c.engine = some x ∧ x < f

/-! ## Dictionary lemmas -/

theorem dget_nil (k : String) : dget [] k = none := rfl

theorem dget_cons (p : String × OptVal) (t : Dict) (k : String) :
    dget (p :: t) k = if p.1 = k then some p.2 else dget t k := by
  unfold dget
  by_cases hk : p.1 = k <;> simp [List.find?, hk]

theorem dget_dset_self (d : Dict) (k : String) (v : OptVal) :
    dget (dset d k v) k = some v := by
  induction d with
  | nil => simp [dset, dget_cons]
  | cons p t ih =>
    by_cases hk : p.1 = k
    · simp [dset, hk, dget_cons]
    · simp [dset, hk, dget_cons, ih]

theorem dget_dset_ne (d : Dict) (k1 k2 : String) (v : OptVal) (h : k1 ≠ k2) :
    dget (dset d k1 v) k2 = dget d k2 := by
  induction d with
  | nil => simp [dset, dget_cons, h, dget_nil]
  | cons p t ih =>
    by_cases hk : p.1 = k1
    · simp [dset, hk, dget_cons, h, hk ▸ h]
    · by_cases hk2 : p.1 = k2 <;> simp [dset, hk, dget_cons, hk2, ih, Ne.symm h]

theorem dget_eq_none_of_not_mem (d : Dict) (k : String)
    (h : k ∉ d.map Prod.fst) : dget d k = none := by
  induction d with
  | nil => rfl
  | cons p t ih =>
    simp only [List.map_cons, List.mem_cons] at h
    push_neg at h
    rw [dget_cons, if_neg (fun hc => h.1 hc.symm)]
    exact ih h.2

theorem dget_dupdate_of_none (a b : Dict) (k : String) (h : dget b k = none) :
    dget (dupdate a b) k = dget a k := by
  induction b generalizing a with
  | nil => rfl
  | cons p t ih =>
    rw [dget_cons] at h
    by_cases hk : p.1 = k
    · simp [hk] at h
    · simp only [hk, if_false] at h
      show dget (dupdate (dset a p.1 p.2) t) k = dget a k
      rw [ih _ h, dget_dset_ne _ _ _ _ hk]

theorem dget_dupdate_of_some (a b : Dict) (k : String) (v : OptVal)
    (hb : NodupKeys b) (h : dget b k = some v) :
    dget (dupdate a b) k = some v := by
  induction b generalizing a with
  | nil => simp [dget_nil] at h
  | cons p t ih =>
    have hb2 : NodupKeys t := by
      unfold NodupKeys at hb ⊢
      simpa using (List.nodup_cons.mp hb).2
    rw [dget_cons] at h
    by_cases hk : p.1 = k
    · simp only [hk, if_true] at h
      have ht : dget t k = none := by
        apply dget_eq_none_of_not_mem
        unfold NodupKeys at hb
        simpa [hk] using (List.nodup_cons.mp hb).1
      show dget (dupdate (dset a p.1 p.2) t) k = some v
      rw [dget_dupdate_of_none _ _ _ ht, hk, dget_dset_self, h]
    · simp only [hk, if_false] at h
      show dget (dupdate (dset a p.1 p.2) t) k = some v
      exact ih _ hb2 h

/-! ## Connector lemmas -/

/-- Anatomy of a successful `_EngineConnector.get_engine` call: the URI
resolved, the bind is unchanged, the connector ends up remembering
`(uri, echo)`, and the call was either a cache hit (connector and
counter untouched, the cached engine returned) or a rebuild (a fresh
engine id allocated and stored). -/
theorem connector_get_engine_ok_shape (cfg : Config) (rootPath : String) (ctorOpts : Dict)
    (c : Connector) (fresh : Nat) (e : Nat) (c2 : Connector) (fresh2 : Nat)
    (h : EngineConnector.get_engine cfg rootPath ctorOpts c fresh = .ok (e, c2, fresh2)) :
    ∃ uri, EngineConnector.get_uri cfg c.bind = .ok uri ∧
      c2.bind = c.bind ∧
      c2.connectedFor = some (uri, cfg.echo) ∧
      ((c.connectedFor = some (uri, cfg.echo) ∧ c2 = c ∧ fresh2 = fresh ∧
          e = c.engine.getD 0) ∨
       (c.connectedFor ≠ some (uri, cfg.echo) ∧ c2.engine = some e ∧ e = fresh ∧
          fresh2 = fresh + 1)) := by
  unfold EngineConnector.get_engine at h
  cases hu : EngineConnector.get_uri cfg c.bind with
  | error m => rw [hu] at h; simp at h
  | ok uri =>
    rw [hu] at h
    dsimp only at h
    by_cases hc : c.connectedFor = some (uri, cfg.echo)
    · rw [if_pos hc] at h
      simp only [Except.ok.injEq, Prod.mk.injEq] at h
      obtain ⟨he, hc2, hf⟩ := h
      subst hc2
      exact ⟨uri, rfl, rfl, hc, Or.inl ⟨hc, rfl, hf.symm, he.symm⟩⟩
    · rw [if_neg hc] at h
      cases uri with
      | none => simp at h
      | some u =>
        dsimp only at h
        cases ho : get_options cfg rootPath ctorOpts (make_url u) cfg.echo with
        | error m => rw [ho] at h; simp at h
        | ok p =>
          rw [ho] at h
          dsimp only at h
          simp only [Except.ok.injEq, Prod.mk.injEq] at h
          obtain ⟨he, hc2, hf⟩ := h
          subst hc2
          exact ⟨some u, rfl, rfl, rfl, Or.inr ⟨hc, by rw [← he], he.symm, hf.symm⟩⟩

/-! ## Claim theorems -/

/-- C1: after a successful `_EngineConnector.get_engine` call yielding
engine `e`, a second call under the same configuration (same resolved
URI, same echo flag) returns the identical engine `e` with connector and
allocation counter untouched, while a call whose resolved `(uri, echo)`
pair differs constructs a brand-new engine (`e2 = fresh2`, distinct from
`e`) and caches it in the connector in place of the old one. -/
theorem engine_cache_reuse_and_invalidation
    (cfg cfg2 : Config) (rootPath : String) (ctorOpts : Dict)
    (c : Connector) (fresh : Nat) (e : Nat) (c2 : Connector) (fresh2 : Nat)
    (hwf : ConnWF c fresh)
    (h1 : EngineConnector.get_engine cfg rootPath ctorOpts c fresh = .ok (e, c2, fresh2)) :
    EngineConnector.get_engine cfg rootPath ctorOpts c2 fresh2 = .ok (e, c2, fresh2) ∧
    ConnWF c2 fresh2 ∧ e < fresh2 ∧
    (∀ uri1 uri2 e2 c3 fresh3,
      EngineConnector.get_uri cfg c.bind = .ok uri1 →
      EngineConnector.get_uri cfg2 c2.bind = .ok uri2 →
      (uri2, cfg2.echo) ≠ (uri1, cfg.echo) →
      EngineConnector.get_engine cfg2 rootPath ctorOpts c2 fresh2 = .ok (e2, c3, fresh3) →
      e2 = fresh2 ∧ e2 ≠ e ∧ c3.engine = some e2 ∧
        c3.connectedFor = some (uri2, cfg2.echo) ∧ fresh3 = fresh2 + 1) := by
  obtain ⟨uri, hu, hbind, hcf, hcase⟩ := connector_get_engine_ok_shape _ _ _ _ _ _ _ _ h1
  have hreuse : EngineConnector.get_engine cfg rootPath ctorOpts c2 fresh2 =
      .ok (e, c2, fresh2) := by
    unfold EngineConnector.get_engine
    rw [hbind, hu]
    dsimp only
    rw [if_pos hcf]
    rcases hcase with ⟨hhit, hc2, hf, he⟩ | ⟨-, heng, -, -⟩
    · subst hc2
      rw [← he]
    · rw [heng]
      rfl
  have hlt : e < fresh2 := by
    rcases hcase with ⟨hhit, hc2, hf, he⟩ | ⟨-, -, he, hf⟩
    · subst hc2
      obtain ⟨x, hx, hxf⟩ := hwf _ hhit
      rw [he, hx]
      simpa [hf] using hxf
    · rw [he, hf]
      omega
  have hwf2 : ConnWF c2 fresh2 := by
    intro p hp
    rcases hcase with ⟨hhit, hc2, hf, he⟩ | ⟨-, heng, he, hf⟩
    · subst hc2
      rw [hf]
      exact hwf p hp
    · exact ⟨e, heng, hlt⟩
  refine ⟨hreuse, hwf2, hlt, ?_⟩
  intro uri1 uri2 e2 c3 fresh3 hu1 hu2 hne h2
  have huri1 : uri1 = uri := by
    rw [hu] at hu1
    injection hu1 with hq
    exact hq.symm
  obtain ⟨uriB, huB, hbind3, hcf3, hcaseB⟩ := connector_get_engine_ok_shape _ _ _ _ _ _ _ _ h2
  have huri2 : uriB = uri2 := by
    rw [hu2] at huB
    injection huB with hq
    exact hq.symm
  subst huri1 huri2
  rcases hcaseB with ⟨hhitB, hc3, hfB, heB⟩ | ⟨hmissB, hengB, heB, hfB⟩
  · exfalso
    rw [hcf] at hhitB
    injection hhitB with hq
    exact hne (by rw [hq])
  · refine ⟨heB.trans rfl, ?_, hengB, hcf3, hfB⟩
    rw [heB]
    exact Nat.ne_of_gt hlt

/-- Witness for C1: over `sampleConfig` the first build yields engine
`0`; a repeat call returns the identical engine `0` unchanged, and
flipping `SQLALCHEMY_ECHO` makes the next access build engine `1 ≠ 0`. -/
theorem engine_cache_reuse_and_invalidation_witness :
    EngineConnector.get_engine sampleConfig "/srv/app" []
      { bind := none, connectedFor := some (some "sqlite://", false), engine := some 0 } 1 =
      .ok (0,
        { bind := none, connectedFor := some (some "sqlite://", false), engine := some 0 },
        1) ∧
    (1 : Nat) ≠ 0 := by
  have h := engine_cache_reuse_and_invalidation sampleConfig
    { sampleConfig with echo := true } "/srv/app" [] (make_connector none) 0 0
    { bind := none, connectedFor := some (some "sqlite://", false), engine := some 0 } 1
    (fun p hp => Option.noConfusion hp) rfl
  refine ⟨h.1, ?_⟩
  have h2 := h.2.2.2 (some "sqlite://") (some "sqlite://") 1
    { bind := none, connectedFor := some (some "sqlite://", true), engine := some 1 } 2
    rfl rfl (by decide) rfl
  exact h2.2.1

/-- C5: `SignallingSession.get_bind` routes a mapper whose table info
carries a non-null `bind_key` to `SQLAlchemy.get_engine` on the state as
it is at the moment of the call (independently of the base-class binding
captured at session construction), and falls back to the base-class
resolution for a null `bind_key` or a missing mapper. -/
theorem get_bind_routes_by_bind_key (st : DBState) (sb : Nat) (m : Mapper) (k : String) :
    (m.bindKey = some k →
      SignallingSession.get_bind ⟨st, sb⟩ (some m) =
        (SQLAlchemy.get_engine st (some k)).map (fun r => r.1)) ∧
    (m.bindKey = none → SignallingSession.get_bind ⟨st, sb⟩ (some m) = .ok sb) ∧
    SignallingSession.get_bind ⟨st, sb⟩ none = .ok sb ∧
    (∀ sb2 : Nat, m.bindKey = some k →
      SignallingSession.get_bind ⟨st, sb2⟩ (some m) =
        SignallingSession.get_bind ⟨st, sb⟩ (some m)) := by
  refine ⟨?_, ?_, rfl, ?_⟩
  · intro h
    simp only [SignallingSession.get_bind, h]
  · intro h
    simp only [SignallingSession.get_bind, h]
  · intro sb2 h
    simp only [SignallingSession.get_bind, h]

/-- Witness for C5: over `sampleState` a mapper tagged `analytics` is
routed to the engine built for the `analytics` bind (engine `0`, freshly
constructed), not to the construction-time default engine `7`. -/
theorem get_bind_routes_by_bind_key_witness :
    SignallingSession.get_bind ⟨sampleState, 7⟩ (some ⟨some "analytics"⟩) =
      (SQLAlchemy.get_engine sampleState (some "analytics")).map (fun r => r.1) ∧
    SignallingSession.get_bind ⟨sampleState, 7⟩ (some ⟨some "analytics"⟩) = .ok 0 ∧
    SignallingSession.get_bind ⟨sampleState, 7⟩ (some ⟨none⟩) = .ok 7 :=
  ⟨(get_bind_routes_by_bind_key sampleState 7 ⟨some "analytics"⟩ "analytics").1 rfl,
   ((get_bind_routes_by_bind_key sampleState 7 ⟨some "analytics"⟩ "analytics").1 rfl).trans rfl,
   (get_bind_routes_by_bind_key sampleState 7 ⟨none⟩ "analytics").2.1 rfl⟩

/-- C2: a configuration supplying a primary database URI (a non-empty
`SQLALCHEMY_DATABASE_URI` string; Python truthiness makes an empty
string count as unset) passes `init_app`'s URI/bind check, while a
configuration supplying neither a primary URI nor a bind map makes
`init_app` raise the configuration `RuntimeError`. -/
theorem init_app_requires_uri_or_binds (c : UserConfig) (s : String) :
    (c.databaseURI = some s → s ≠ "" → ∃ cfg, init_app c = .ok cfg) ∧
    (c.databaseURI = none → c.binds = none → init_app c = .error needUriMsg) := by
  constructor
  · intro h hs
    unfold init_app
    rw [h]
    simp [truthyStr, hs]
  · intro h hb
    unfold init_app
    rw [h, hb]
    rfl

/-- Witness for C2: a config with only `sqlite://` as the primary URI
passes the check, and the empty config raises. -/
theorem init_app_requires_uri_or_binds_witness :
    (∃ cfg, init_app { databaseURI := some "sqlite://" } = .ok cfg) ∧
    init_app {} = .error needUriMsg :=
  ⟨(init_app_requires_uri_or_binds { databaseURI := some "sqlite://" } "sqlite://").1
      rfl (by decide),
   (init_app_requires_uri_or_binds {} "x").2 rfl rfl⟩

/-- C3: for every request (any commit-on-teardown flag, handler raising
or not), the middleware performs exactly `rollback`, `flush`,
`expire_all` before invoking the handler, the handler is invoked, and
the session `remove` is the last operation of the trace — so the session
is released whether the handler returned or raised. -/
theorem middleware_resets_and_always_removes :
    ∀ commitOnTeardown handlerRaises : Bool,
      ((db_session_middleware commitOnTeardown handlerRaises).1.takeWhile
          (fun o => decide (o ≠ MWOp.callNext))) = [.rollback, .flush, .expireAll] ∧
      MWOp.callNext ∈ (db_session_middleware commitOnTeardown handlerRaises).1 ∧
      ((db_session_middleware commitOnTeardown handlerRaises).1.getLast?) =
        some MWOp.remove := by
  decide

/-- Counterexample for C9 as stated: with `SQLALCHEMY_COMMIT_ON_TEARDOWN`
enabled but a handler that raises, the middleware performs no commit (the
commit block sits after `call_next` inside the `try`), so not *every*
request under the flag gets a warning and a commit. -/
theorem middleware_no_commit_when_handler_raises :
    MWOp.commit ∉ (db_session_middleware true true).1 ∧
    MWOp.warnDeprecation ∉ (db_session_middleware true true).1 ∧
    (db_session_middleware true true).1.getLast? = some MWOp.remove := by
  decide

/-- C9 (amended): for a request whose handler returns normally with the
commit-on-teardown flag enabled, the middleware emits the deprecation
warning and commits the session, and the commit happens before the
session is released by `remove`. -/
theorem middleware_commit_on_teardown_on_success :
    MWOp.warnDeprecation ∈ (db_session_middleware true false).1 ∧
    MWOp.commit ∈ (db_session_middleware true false).1 ∧
    (db_session_middleware true false).1.indexOf MWOp.warnDeprecation <
      (db_session_middleware true false).1.indexOf MWOp.commit ∧
    (db_session_middleware true false).1.indexOf MWOp.commit <
      (db_session_middleware true false).1.indexOf MWOp.remove := by
  decide

/-- C4: for a SQLite URL with an in-memory database target (`None`,
empty, or `:memory:`), an options dictionary whose pool size is
explicitly zero makes `apply_driver_hacks` raise the data-loss
`RuntimeError`; the `.error` result means no `(url, options)` pair is
ever produced for `create_engine`, so no engine or connection is
constructed. -/
theorem apply_driver_hacks_memory_zero_pool (rootPath : String) (u : SAUrl)
    (options : Dict) (hd : u.drivername = "sqlite")
    (hm : inMemoryTarget u.database = true)
    (hp : dget options "pool_size" = some (OptVal.int 0)) :
    apply_driver_hacks rootPath u options = .error memZeroPoolMsg := by
  have h1 : strStartsWith "sqlite" "mysql" = false := rfl
  simp [apply_driver_hacks, hd, h1, hm, hp, isExplicitZero]

/-- Witness for C4: `sqlite:///:memory:` with `pool_size = 0` raises. -/
theorem apply_driver_hacks_memory_zero_pool_witness :
    apply_driver_hacks "/srv/app" (make_url "sqlite:///:memory:")
      [("pool_size", OptVal.int 0)] = .error memZeroPoolMsg :=
  apply_driver_hacks_memory_zero_pool "/srv/app" (make_url "sqlite:///:memory:")
    [("pool_size", OptVal.int 0)] rfl rfl rfl

/-- C8: for a SQLite URL with an in-memory database target and a pool
size not explicitly zero (and `connect_args`, if supplied, a dict as the
code assumes), `apply_driver_hacks` succeeds, sets the pool class to the
single-connection `StaticPool`, and sets
`connect_args["check_same_thread"]` to `False`. -/
theorem apply_driver_hacks_memory_static_pool (rootPath : String) (u : SAUrl)
    (options : Dict) (hd : u.drivername = "sqlite")
    (hm : inMemoryTarget u.database = true)
    (hp : isExplicitZero (dget options "pool_size") = false)
    (hca : ∀ v, dget options "connect_args" = some v → ∃ d, v = OptVal.dict d) :
    ∃ o2, apply_driver_hacks rootPath u options = .ok (u, o2) ∧
      dget o2 "poolclass" = some OptVal.poolStatic ∧
      ∃ d, dget o2 "connect_args" = some (OptVal.dict d) ∧
        dget d "check_same_thread" = some (OptVal.boolV false) := by
  have h1 : strStartsWith "sqlite" "mysql" = false := rfl
  have hne : ("poolclass" : String) ≠ "connect_args" := by decide
  have hne2 : ("connect_args" : String) ≠ "poolclass" := by decide
  cases hv : dget options "connect_args" with
  | none =>
    have hc1 : dget (dset options "poolclass" OptVal.poolStatic) "connect_args" = none := by
      rw [dget_dset_ne _ _ _ _ hne]
      exact hv
    refine ⟨dset (dset (dset options "poolclass" OptVal.poolStatic) "connect_args"
        (OptVal.dict [])) "connect_args"
        (OptVal.dict [("check_same_thread", OptVal.boolV false)]), ?_, ?_, ?_⟩
    · simp [apply_driver_hacks, hd, h1, hm, hp, hc1, dget_dset_self, dset]
    · rw [dget_dset_ne _ _ _ _ hne2, dget_dset_ne _ _ _ _ hne2, dget_dset_self]
    · exact ⟨_, dget_dset_self _ _ _, rfl⟩
  | some v =>
    obtain ⟨d0, rfl⟩ := hca v hv
    have hc1 : dget (dset options "poolclass" OptVal.poolStatic) "connect_args" =
        some (OptVal.dict d0) := by
      rw [dget_dset_ne _ _ _ _ hne]
      exact hv
    refine ⟨dset (dset options "poolclass" OptVal.poolStatic) "connect_args"
        (OptVal.dict (dset d0 "check_same_thread" (OptVal.boolV false))), ?_, ?_, ?_⟩
    · simp [apply_driver_hacks, hd, h1, hm, hp, hc1]
    · rw [dget_dset_ne _ _ _ _ hne2, dget_dset_self]
    · exact ⟨_, dget_dset_self _ _ _, dget_dset_self _ _ _⟩

/-- Witness for C8: `sqlite://` with empty options gets a `StaticPool`
and `check_same_thread=False`. -/
theorem apply_driver_hacks_memory_static_pool_witness :
    ∃ o2, apply_driver_hacks "/srv/app" (make_url "sqlite://") [] = .ok (make_url "sqlite://", o2) ∧
      dget o2 "poolclass" = some OptVal.poolStatic ∧
      ∃ d, dget o2 "connect_args" = some (OptVal.dict d) ∧
        dget d "check_same_thread" = some (OptVal.boolV false) :=
  apply_driver_hacks_memory_static_pool "/srv/app" (make_url "sqlite://") []
    rfl rfl rfl (fun v hv => by simp [dget_nil] at hv)

/-- C7: requesting an engine for a bind name absent from
`SQLALCHEMY_BINDS` makes `_EngineConnector.get_uri` fail with the
assertion error naming the bind; the failure surfaces unchanged through
`_EngineConnector.get_engine` (the URI is resolved before the cache is
consulted, so the access is never satisfied from cache) and through
`SQLAlchemy.get_engine`; being pure in the state, a repeated access
yields the same error again rather than a retry. -/
theorem get_uri_missing_bind_raises (cfg : Config) (b : String)
    (h : (cfg.binds.getD []).find? (fun p => p.1 = b) = none) :
    EngineConnector.get_uri cfg (some b) = .error (bindNotConfiguredMsg b) ∧
    (∀ (rootPath : String) (ctorOpts : Dict) (c : Connector) (fresh : Nat),
      c.bind = some b →
      EngineConnector.get_engine cfg rootPath ctorOpts c fresh =
        .error (bindNotConfiguredMsg b)) ∧
    (∀ st : DBState, st.config = cfg →
      (∀ c, getConnector st.connectors (some b) = some c → c.bind = some b) →
      SQLAlchemy.get_engine st (some b) = .error (bindNotConfiguredMsg b)) := by
  have huri : EngineConnector.get_uri cfg (some b) = .error (bindNotConfiguredMsg b) := by
    have e1 : EngineConnector.get_uri cfg (some b) =
        match (cfg.binds.getD []).find? (fun p => decide (p.1 = b)) with
        | some p => .ok (some p.2)
        | none => .error (bindNotConfiguredMsg b) := rfl
    rw [e1, h]
  have heng : ∀ (rootPath : String) (ctorOpts : Dict) (c : Connector) (fresh : Nat),
      c.bind = some b →
      EngineConnector.get_engine cfg rootPath ctorOpts c fresh =
        .error (bindNotConfiguredMsg b) := by
    intro rootPath ctorOpts c fresh hc
    unfold EngineConnector.get_engine
    rw [hc, huri]
  refine ⟨huri, heng, ?_⟩
  intro st hst hcs
  cases hg : getConnector st.connectors (some b) with
  | none =>
    simp only [SQLAlchemy.get_engine, hg, Option.getD_none, hst]
    rw [heng _ _ _ _ rfl]
  | some c0 =>
    simp only [SQLAlchemy.get_engine, hg, Option.getD_some, hst]
    rw [heng _ _ _ _ (hcs c0 hg)]

/-- Witness for C7: the bind name `missing` is not configured in
`sampleConfig`, so both the URI resolution and the engine access over
`sampleState` fail with the assertion naming it. -/
theorem get_uri_missing_bind_raises_witness :
    EngineConnector.get_uri sampleConfig (some "missing") =
      .error (bindNotConfiguredMsg "missing") ∧
    SQLAlchemy.get_engine sampleState (some "missing") =
      .error (bindNotConfiguredMsg "missing") :=
  ⟨(get_uri_missing_bind_raises sampleConfig "missing" rfl).1,
   (get_uri_missing_bind_raises sampleConfig "missing" rfl).2.2 sampleState rfl
     (fun c hc => by simp [sampleState, getConnector] at hc)⟩

/-- C6: in the options mapping `get_options` produces for engine
creation, a key set in several layers resolves with precedence (lowest
to highest): the dialect defaults injected by `apply_driver_hacks`
(together with the echo flag the connector adds), then the user's
`SQLALCHEMY_ENGINE_OPTIONS`, then the `engine_options` passed to the
`SQLAlchemy` constructor. -/
theorem get_options_precedence (cfg : Config) (rootPath : String) (ctorOpts : Dict)
    (u : SAUrl) (echo : Bool) (k : String) (base : SAUrl × Dict)
    (hb : apply_driver_hacks rootPath u [] = .ok base)
    (hcfg : NodupKeys cfg.engineOptions) (hco : NodupKeys ctorOpts) :
    ∃ o2, get_options cfg rootPath ctorOpts u echo = .ok (base.1, o2) ∧
      dget o2 k =
        match dget ctorOpts k with
        | some v => some v
        | none =>
          match dget cfg.engineOptions k with
          | some v => some v
          | none =>
            dget (if echo then dset base.2 "echo" (OptVal.boolV echo) else base.2) k := by
  obtain ⟨u2, b2⟩ := base
  simp only [get_options, hb]
  refine ⟨_, rfl, ?_⟩
  cases hk1 : dget ctorOpts k with
  | some v => rw [dget_dupdate_of_some _ _ _ _ hco hk1]
  | none =>
    rw [dget_dupdate_of_none _ _ _ hk1]
    cases hk2 : dget cfg.engineOptions k with
    | some v => rw [dget_dupdate_of_some _ _ _ _ hcfg hk2]
    | none => rw [dget_dupdate_of_none _ _ _ hk2]

/-- Witness for C6: over a MySQL URL, `pool_recycle` defaults to `7200`
from the driver hacks, the config sets it to `5`, and the constructor
options set it to `9`; the final mapping holds `9`. -/
theorem get_options_precedence_witness :
    ∃ o2, get_options { sampleConfig with engineOptions := [("pool_recycle", OptVal.int 5)] }
        "/srv/app" [("pool_recycle", OptVal.int 9)] (make_url "mysql://h/db") false =
        .ok ({ drivername := "mysql", database := some "db",
               query := [("charset", "utf8mb4")] }, o2) ∧
      dget o2 "pool_recycle" = some (OptVal.int 9) := by
  obtain ⟨o2, h1, h2⟩ :=
    get_options_precedence
      { sampleConfig with engineOptions := [("pool_recycle", OptVal.int 5)] }
      "/srv/app" [("pool_recycle", OptVal.int 9)] (make_url "mysql://h/db") false
      "pool_recycle"
      ({ drivername := "mysql", database := some "db", query := [("charset", "utf8mb4")] },
        [("pool_size", OptVal.int 10), ("pool_recycle", OptVal.int 7200)])
      rfl (by unfold NodupKeys; decide) (by unfold NodupKeys; decide)
  exact ⟨o2, h1, by rw [h2]; rfl⟩

/-- C10: `get_app` returns an explicit application reference unchanged;
with no reference it returns the application bound on the instance; with
neither it raises the "No application found" `RuntimeError` — and hence
`get_engine`, which starts with `self.get_app(app)`, raises the same
error for every state and bind when no application was ever bound. -/
theorem get_app_lookup_order :
    (∀ (s : Option App) (a : App), get_app s (some a) = .ok a) ∧
    (∀ b : App, get_app (some b) none = .ok b) ∧
    get_app none none = .error noAppMsg ∧
    (∀ (st : DBState) (bind : Option String),
      SQLAlchemy.get_engine_entry none none st bind = .error noAppMsg) := by
  refine ⟨fun s a => rfl, fun b => rfl, rfl, fun st bind => rfl⟩

end FastapiSQLAlchemy
